import Mathlib

/-!
Verification development for the parametric solid geometry kernel
(`src/server/src/services/shapeGenerator.ts`, dispatched from
`src/server/src/controllers/geometryController.ts`) and the DXF drawing
engine (`src/server/src/services/dxfEngine.ts`) of the
opencascade-configurator server.

Embedding conventions:
* JavaScript numbers are idealized as rationals (`ℚ`); `Math.PI` becomes
  the rational literal `piJS` (the decimal value JavaScript prints for
  `Math.PI`).  Mesh vertex coordinates, which involve `Math.cos` /
  `Math.sin` / `Math.sqrt`, are modeled over `ℝ` with the real functions.
* A thrown exception is modeled as `Except.error` carrying the message.
* A runtime shape value (`req.body.shape`) is a record with a string tag,
  exactly as the `switch (shape.type)` in `generateShape` dispatches it;
  numeric fields that are absent at runtime are modeled as `0`, which
  agrees with the controller's JavaScript falsiness checks (`!shape.width`
  is true both for `undefined` and for `0`).
* The DXF engine is split into a record-building phase (`List DXFRec`,
  one record per template chunk the source concatenates) and a
  serialization phase (`serializeRec`) that reproduces the source's
  string templates, including the fixed `toFixed(3)` coordinate
  formatting and the hard-coded `0.0` z fields.
-/

/-- Material, from `src/server/src/types/shapes.ts`. -/
structure Material where
  name : String
  density : ℚ
  color : String
  finish : String
  cost : Option ℚ := none
deriving DecidableEq, Repr

/-- Runtime shape value: the tagged union from `src/server/src/types/shapes.ts`
as it arrives at `generateShape` (string tag plus numeric parameters).
Fields a given variant does not use default to `0` (absent at runtime). -/
structure Shape where
  type : String
  width : ℚ := 0
  height : ℚ := 0
  depth : ℚ := 0
  radius : ℚ := 0
  material : Option Material := none
deriving DecidableEq, Repr

/-- `ShapeGeometry` from `src/server/src/services/shapeGenerator.ts`. -/
structure ShapeGeometry where
  vertices : List (ℝ × ℝ × ℝ)
  faces : List (List ℕ)
  edges : List (List ℕ)
  volume : ℝ
  surfaceArea : ℝ
  weight : Option ℝ

/-- The value JavaScript prints for `Math.PI`. -/
def piJS : ℚ := 3.141592653589793

/-- `generateBox` (shapeGenerator.ts lines 38-86). -/
noncomputable def generateBox (shape : Shape) : ShapeGeometry :=
  let w := shape.width / 2
  let h := shape.height / 2
  let d := shape.depth / 2
  let vertices : List (ℝ × ℝ × ℝ) :=
    [(((-w : ℚ) : ℝ), ((-h : ℚ) : ℝ), ((-d : ℚ) : ℝ)),
     (((w : ℚ) : ℝ), ((-h : ℚ) : ℝ), ((-d : ℚ) : ℝ)),
     (((w : ℚ) : ℝ), ((h : ℚ) : ℝ), ((-d : ℚ) : ℝ)),
     (((-w : ℚ) : ℝ), ((h : ℚ) : ℝ), ((-d : ℚ) : ℝ)),
     (((-w : ℚ) : ℝ), ((-h : ℚ) : ℝ), ((d : ℚ) : ℝ)),
     (((w : ℚ) : ℝ), ((-h : ℚ) : ℝ), ((d : ℚ) : ℝ)),
     (((w : ℚ) : ℝ), ((h : ℚ) : ℝ), ((d : ℚ) : ℝ)),
     (((-w : ℚ) : ℝ), ((h : ℚ) : ℝ), ((d : ℚ) : ℝ))]
  let faces : List (List ℕ) :=
    [[0, 1, 2, 3], [4, 5, 6, 7], [0, 1, 5, 4], [2, 3, 7, 6], [0, 3, 7, 4], [1, 2, 6, 5]]
  let edges : List (List ℕ) :=
    [[0, 1], [1, 2], [2, 3], [3, 0], [4, 5], [5, 6], [6, 7], [7, 4],
     [0, 4], [1, 5], [2, 6], [3, 7]]
  let volume : ℝ := ((shape.width * shape.height * shape.depth : ℚ) : ℝ)
  let surfaceArea : ℝ :=
    ((2 * (shape.width * shape.height + shape.width * shape.depth +
      shape.height * shape.depth) : ℚ) : ℝ)
  let weight := shape.material.map fun m => volume / 1000000 * (m.density : ℝ)
  { vertices := vertices, faces := faces, edges := edges,
    volume := volume, surfaceArea := surfaceArea, weight := weight }

/-- `generateCylinder` (shapeGenerator.ts lines 88-142); 32 segments. -/
noncomputable def generateCylinder (shape : Shape) : ShapeGeometry :=
  let radius := shape.radius
  let height := shape.height
  let segments : ℕ := 32
  let angle : ℕ → ℝ := fun i => (((i : ℚ) / (segments : ℚ) * piJS * 2 : ℚ) : ℝ)
  let vertices : List (ℝ × ℝ × ℝ) :=
    ((List.range segments).map fun i =>
      (Real.cos (angle i) * (radius : ℝ), ((height / 2 : ℚ) : ℝ),
       Real.sin (angle i) * (radius : ℝ))) ++
    ((List.range segments).map fun i =>
      (Real.cos (angle i) * (radius : ℝ), ((-height / 2 : ℚ) : ℝ),
       Real.sin (angle i) * (radius : ℝ))) ++
    [((0 : ℝ), ((height / 2 : ℚ) : ℝ), (0 : ℝ)),
     ((0 : ℝ), ((-height / 2 : ℚ) : ℝ), (0 : ℝ))]
  let faces : List (List ℕ) := (List.range segments).flatMap fun i =>
    let next := (i + 1) % segments
    [[i, next, next + segments, i + segments],
     [i, next, segments * 2],
     [i + segments, next + segments, segments * 2 + 1]]
  let edges : List (List ℕ) := (List.range segments).flatMap fun i =>
    let next := (i + 1) % segments
    [[i, next], [i + segments, next + segments], [i, i + segments]]
  let volume : ℝ := ((piJS * radius * radius * height : ℚ) : ℝ)
  let surfaceArea : ℝ := ((2 * piJS * radius * (radius + height) : ℚ) : ℝ)
  let weight := shape.material.map fun m => volume / 1000000 * (m.density : ℝ)
  { vertices := vertices, faces := faces, edges := edges,
    volume := volume, surfaceArea := surfaceArea, weight := weight }

/-- `generateCone` (shapeGenerator.ts lines 144-189); 32 segments. -/
noncomputable def generateCone (shape : Shape) : ShapeGeometry :=
  let radius := shape.radius
  let height := shape.height
  let segments : ℕ := 32
  let angle : ℕ → ℝ := fun i => (((i : ℚ) / (segments : ℚ) * piJS * 2 : ℚ) : ℝ)
  let vertices : List (ℝ × ℝ × ℝ) :=
    ((List.range segments).map fun i =>
      (Real.cos (angle i) * (radius : ℝ), ((-height / 2 : ℚ) : ℝ),
       Real.sin (angle i) * (radius : ℝ))) ++
    [((0 : ℝ), ((height / 2 : ℚ) : ℝ), (0 : ℝ)),
     ((0 : ℝ), ((-height / 2 : ℚ) : ℝ), (0 : ℝ))]
  let faces : List (List ℕ) := (List.range segments).flatMap fun i =>
    let next := (i + 1) % segments
    [[i, next, segments], [i, next, segments + 1]]
  let edges : List (List ℕ) := (List.range segments).flatMap fun i =>
    let next := (i + 1) % segments
    [[i, next], [i, segments]]
  let volume : ℝ := ((piJS * radius * radius * height / 3 : ℚ) : ℝ)
  let slantHeight : ℝ := Real.sqrt (((radius * radius + height * height : ℚ) : ℝ))
  let surfaceArea : ℝ := ((piJS * radius : ℚ) : ℝ) * (((radius : ℚ) : ℝ) + slantHeight)
  let weight := shape.material.map fun m => volume / 1000000 * (m.density : ℝ)
  { vertices := vertices, faces := faces, edges := edges,
    volume := volume, surfaceArea := surfaceArea, weight := weight }

/-- `generateSphere` (shapeGenerator.ts lines 191-237); 16 rings, 16 segments. -/
noncomputable def generateSphere (shape : Shape) : ShapeGeometry :=
  let radius := shape.radius
  let segments : ℕ := 16
  let rings : ℕ := 16
  let vertices : List (ℝ × ℝ × ℝ) :=
    (List.range (rings + 1)).flatMap fun i =>
      (List.range (segments + 1)).map fun j =>
        let phi : ℝ := (((i : ℚ) / (rings : ℚ) * piJS : ℚ) : ℝ)
        let theta : ℝ := (((j : ℚ) / (segments : ℚ) * piJS * 2 : ℚ) : ℝ)
        ((radius : ℝ) * Real.sin phi * Real.cos theta,
         (radius : ℝ) * Real.cos phi,
         (radius : ℝ) * Real.sin phi * Real.sin theta)
  let faces : List (List ℕ) :=
    (List.range rings).flatMap fun i =>
      (List.range segments).map fun j =>
        let a := i * (segments + 1) + j
        let b := a + segments + 1
        [a, b, b + 1, a + 1]
  let edges : List (List ℕ) :=
    (List.range rings).flatMap fun i =>
      (List.range segments).flatMap fun j =>
        let a := i * (segments + 1) + j
        let b := a + segments + 1
        [[a, a + 1], [a, b]]
  let volume : ℝ := (4 / 3 : ℝ) * ((piJS : ℚ) : ℝ) *
    (radius : ℝ) * (radius : ℝ) * (radius : ℝ)
  let surfaceArea : ℝ := ((4 * piJS * radius * radius : ℚ) : ℝ)
  let weight := shape.material.map fun m => volume / 1000000 * (m.density : ℝ)
  { vertices := vertices, faces := faces, edges := edges,
    volume := volume, surfaceArea := surfaceArea, weight := weight }

/-- `generateShape` (shapeGenerator.ts lines 23-36): dispatch on the runtime
tag; the `default` branch throws `Unknown shape type`. -/
noncomputable def generateShape (shape : Shape) : Except String ShapeGeometry :=
  if shape.type = "box" then Except.ok (generateBox shape)
  else if shape.type = "cylinder" then Except.ok (generateCylinder shape)
  else if shape.type = "cone" then Except.ok (generateCone shape)
  else if shape.type = "sphere" then Except.ok (generateSphere shape)
  else Except.error "Unknown shape type"

/-- The validation-plus-generation pipeline of the HTTP controller
`generateModel` (geometryController.ts lines 45-100): runtime falsiness
checks (`!shape.width` etc., true for `0`/absent), then the `<= 0` checks,
then the call to `generateShape` (whose throw for an unknown tag is caught
and reported). -/
noncomputable def generateModel (shape : Shape) : Except String ShapeGeometry :=
  if shape.type = "" then Except.error "Missing shape parameter"
  else if shape.type = "box" then
    if shape.width = 0 ∨ shape.height = 0 ∨ shape.depth = 0 then
      Except.error "Box requires width, height, depth"
    else if shape.width ≤ 0 ∨ shape.height ≤ 0 ∨ shape.depth ≤ 0 then
      Except.error "Dimensions must be positive"
    else generateShape shape
  else if shape.type = "cylinder" ∨ shape.type = "cone" then
    if shape.radius = 0 ∨ shape.height = 0 then
      Except.error (shape.type ++ " requires radius and height")
    else if shape.radius ≤ 0 ∨ shape.height ≤ 0 then
      Except.error "Dimensions must be positive"
    else generateShape shape
  else if shape.type = "sphere" then
    if shape.radius = 0 then Except.error "Sphere requires radius"
    else if shape.radius ≤ 0 then Except.error "Radius must be positive"
    else generateShape shape
  else generateShape shape

/-- The recognized tags of the closed shape union. -/
def recognizedTag (s : Shape) : Prop :=
  s.type = "box" ∨ s.type = "cylinder" ∨ s.type = "cone" ∨ s.type = "sphere"

/-- All dimensions required by the shape's variant are strictly positive. -/
def posDims (s : Shape) : Prop :=
  (s.type = "box" → 0 < s.width ∧ 0 < s.height ∧ 0 < s.depth) ∧
  (s.type = "cylinder" ∨ s.type = "cone" → 0 < s.radius ∧ 0 < s.height) ∧
  (s.type = "sphere" → 0 < s.radius)

/-- Some dimension required by the shape's variant is `≤ 0`. -/
def hasNonPositiveDim (s : Shape) : Prop :=
  (s.type = "box" ∧ (s.width ≤ 0 ∨ s.height ≤ 0 ∨ s.depth ≤ 0)) ∨
  ((s.type = "cylinder" ∨ s.type = "cone") ∧ (s.radius ≤ 0 ∨ s.height ≤ 0)) ∨
  (s.type = "sphere" ∧ s.radius ≤ 0)

/-- `DrawingConfig` from dxfEngine.ts (optional metadata absent = `none`). -/
structure DrawingConfig where
  width : ℚ
  height : ℚ
  depth : ℚ
  modelName : Option String := none
  author : Option String := none
  date : Option String := none
  units : Option String := none
  scale : Option ℚ := none
deriving DecidableEq, Repr

/-- `Layer` from dxfEngine.ts. -/
structure Layer where
  name : String
  color : ℕ
  lineType : String
deriving DecidableEq, Repr

/-- The engine's `this.config` after the constructor filled the defaults. -/
structure ResolvedConfig where
  width : ℚ
  height : ℚ
  depth : ℚ
  modelName : String
  author : String
  date : String
  units : String
  scale : ℚ
deriving DecidableEq, Repr

/-- JavaScript `a || d` for an optional string (`""` is falsy). -/
def jsOrStr : Option String → String → String
  | some s, d => if s = "" then d else s
  | none, d => d

/-- JavaScript `a || d` for an optional number (`0` is falsy). -/
def jsOrNum : Option ℚ → ℚ → ℚ
  | some q, d => if q = 0 then d else q
  | none, d => d

/-- One emitted chunk of the DXF document: each constructor corresponds to
one template chunk that the source concatenates into the output string. -/
inductive DXFRec where
  | secStart (name : String)
  | secEnd
  | tableStart (name : String) (count : ℕ)
  | tableEnd
  | layerRec (name : String) (color : ℕ) (lineType : String)
  | line (layer : String) (x1 y1 x2 y2 : ℚ)
  | text (layer : String) (x y height : ℚ) (payload : String)
  | raw (chunk : String)
  | eof
deriving DecidableEq, Repr

/-- The character for the base-10 digit `n % 10`. -/
def digChar (n : ℕ) : Char :=
  match n % 10 with
  | 0 => '0'
  | 1 => '1'
  | 2 => '2'
  | 3 => '3'
  | 4 => '4'
  | 5 => '5'
  | 6 => '6'
  | 7 => '7'
  | 8 => '8'
  | 9 => '9'
  | _ => '*'

/-- Base-10 digit list of `n` (most significant first), fueled recursion. -/
def natDigits : ℕ → ℕ → List Char
  | 0, _ => []
  | fuel + 1, n =>
    if n < 10 then [digChar n]
    else natDigits fuel (n / 10) ++ [digChar (n % 10)]

/-- Decimal representation of a natural number. -/
def natRepr (n : ℕ) : String := String.mk (natDigits (n + 1) n)

/-- Decimal representation of an integer. -/
def intRepr (i : ℤ) : String := (if i < 0 then "-" else "") ++ natRepr i.natAbs

/-- JavaScript default number-to-string conversion, on the rational
idealization: exact for the integral, half and tenth values the engine
ever passes (text heights `4`, `3`, `2.5`, `2`, dimension values and the
scale), one decimal digit otherwise. -/
def jsNum (q : ℚ) : String :=
  if q.den = 1 then intRepr q.num
  else
    (if q.num < 0 then "-" else "") ++ natRepr (q.num.natAbs * 10 / q.den / 10) ++
      "." ++ natRepr (q.num.natAbs * 10 / q.den % 10)

/-- `|q| * 1000` rounded to the nearest natural, halves away from zero. -/
def fix3Int (q : ℚ) : ℕ := (2 * (q.num.natAbs * 1000) + q.den) / (2 * q.den)

/-- JavaScript `Number.prototype.toFixed(3)` on the rational idealization:
sign, integer part, a decimal point and exactly three digit characters. -/
def toFixed3 (q : ℚ) : String :=
  (if q.num < 0 then "-" else "") ++ natRepr (fix3Int q / 1000) ++ "." ++
    String.mk [digChar (fix3Int q % 1000 / 100),
               digChar (fix3Int q % 1000 / 10 % 10),
               digChar (fix3Int q % 1000 % 10)]

/-- Number of characters after the last `.` of `s` (`none` if `s` has no dot). -/
def fracDigits (s : String) : Option ℕ :=
  if '.' ∈ s.data then
    some ((s.data.reverse.takeWhile fun c => c != '.').length)
  else none

/-- Serialization of one record, reproducing the corresponding template
chunk of dxfEngine.ts byte for byte (note the hard-coded `0.0` z fields
of LINE and TEXT records). -/
def serializeRec : DXFRec → String
  | .secStart n => "0\nSECTION\n2\n" ++ n ++ "\n"
  | .secEnd => "0\nENDSEC\n"
  | .tableStart n c => "0\nTABLE\n2\n" ++ n ++ "\n70\n" ++ natRepr c ++ "\n"
  | .tableEnd => "0\nENDTAB\n"
  | .layerRec n c lt =>
    "0\nLAYER\n2\n" ++ n ++ "\n70\n0\n62\n" ++ natRepr c ++ "\n6\n" ++ lt ++ "\n"
  | .line layer x1 y1 x2 y2 =>
    "0\nLINE\n8\n" ++ layer ++ "\n10\n" ++ toFixed3 x1 ++ "\n20\n" ++ toFixed3 y1 ++
      "\n30\n0.0\n11\n" ++ toFixed3 x2 ++ "\n21\n" ++ toFixed3 y2 ++ "\n31\n0.0\n"
  | .text layer x y h payload =>
    "0\nTEXT\n8\n" ++ layer ++ "\n10\n" ++ toFixed3 x ++ "\n20\n" ++ toFixed3 y ++
      "\n30\n0.0\n40\n" ++ jsNum h ++ "\n1\n" ++ payload ++ "\n"
  | .raw chunk => chunk
  | .eof => "0\nEOF\n"

/-- Serialization of the whole record list. -/
def serializeRecords (recs : List DXFRec) : String :=
  String.join (recs.map serializeRec)

namespace DXFEngine

/-- The fixed six-entry layer registry (dxfEngine.ts lines 25-32). -/
def layers : List Layer :=
  [{ name := "DIMENSIONS", color := 1, lineType := "CONTINUOUS" },
   { name := "GEOMETRY", color := 7, lineType := "CONTINUOUS" },
   { name := "CENTERLINES", color := 4, lineType := "CENTER" },
   { name := "HIDDEN", color := 8, lineType := "HIDDEN" },
   { name := "TEXT", color := 3, lineType := "CONTINUOUS" },
   { name := "TITLEBLOCK", color := 2, lineType := "CONTINUOUS" }]

/-- The constructor (dxfEngine.ts lines 34-43): JavaScript `||` defaults.
`today` is the ambient clock value `new Date().toISOString().split("T")[0]`. -/
def resolveConfig (today : String) (config : DrawingConfig) : ResolvedConfig :=
  { width := config.width
    height := config.height
    depth := config.depth
    modelName := jsOrStr config.modelName "Parametric Box"
    author := jsOrStr config.author "Configurator"
    date := jsOrStr config.date today
    units := jsOrStr config.units "mm"
    scale := jsOrNum config.scale 1 }

/-- `drawLine` (dxfEngine.ts lines 425-449). -/
def drawLine (x1 y1 x2 y2 : ℚ) (layer : String) : List DXFRec :=
  [DXFRec.line layer x1 y1 x2 y2]

/-- `drawText` (dxfEngine.ts lines 451-473). -/
def drawText (text : String) (x y height : ℚ) (layer : String) : List DXFRec :=
  [DXFRec.text layer x y height text]

/-- `drawRectangle` (dxfEngine.ts lines 410-423). -/
def drawRectangle (x y w h : ℚ) (layer : String) : List DXFRec :=
  drawLine x y (x + w) y layer ++
  drawLine (x + w) y (x + w) (y + h) layer ++
  drawLine (x + w) (y + h) x (y + h) layer ++
  drawLine x (y + h) x y layer

/-- `drawHorizontalDimension` (dxfEngine.ts lines 475-501). -/
def drawHorizontalDimension (x y len : ℚ) (text : String) (layer : String) :
    List DXFRec :=
  drawLine x y (x + len) y layer ++
  drawLine x (y - 5) x (y + 5) layer ++
  drawLine (x + len) (y - 5) (x + len) (y + 5) layer ++
  drawLine x y (x + 5) (y + 2) layer ++
  drawLine x y (x + 5) (y - 2) layer ++
  drawLine (x + len) y (x + len - 5) (y + 2) layer ++
  drawLine (x + len) y (x + len - 5) (y - 2) layer ++
  drawText text (x + len / 2 - 5) (y + 3) 2.5 layer

/-- `drawVerticalDimension` (dxfEngine.ts lines 503-529). -/
def drawVerticalDimension (x y len : ℚ) (text : String) (layer : String) :
    List DXFRec :=
  drawLine x y x (y + len) layer ++
  drawLine (x - 5) y (x + 5) y layer ++
  drawLine (x - 5) (y + len) (x + 5) (y + len) layer ++
  drawLine x y (x + 2) (y + 5) layer ++
  drawLine x y (x - 2) (y + 5) layer ++
  drawLine x (y + len) (x + 2) (y + len - 5) layer ++
  drawLine x (y + len) (x - 2) (y + len - 5) layer ++
  drawText text (x + 5) (y + len / 2) 2.5 layer

/-- `drawTitleBlock` (dxfEngine.ts lines 217-256). -/
def drawTitleBlock (c : ResolvedConfig) : List DXFRec :=
  let x : ℚ := 250
  let y : ℚ := -150
  let w : ℚ := 150
  let h : ℚ := 80
  drawRectangle x y w h "TITLEBLOCK" ++
  drawLine x (y + 20) (x + w) (y + 20) "TITLEBLOCK" ++
  drawLine x (y + 40) (x + w) (y + 40) "TITLEBLOCK" ++
  drawLine x (y + 60) (x + w) (y + 60) "TITLEBLOCK" ++
  drawLine (x + 50) y (x + 50) (y + 60) "TITLEBLOCK" ++
  drawText "TITLE:" (x + 5) (y + h - 15) 3 "TEXT" ++
  drawText c.modelName (x + 55) (y + h - 15) 4 "TEXT" ++
  drawText "AUTHOR:" (x + 5) (y + h - 35) 3 "TEXT" ++
  drawText c.author (x + 55) (y + h - 35) 3 "TEXT" ++
  drawText "DATE:" (x + 5) (y + h - 55) 3 "TEXT" ++
  drawText c.date (x + 55) (y + h - 55) 3 "TEXT" ++
  drawText "SCALE:" (x + 5) (y + h - 75) 3 "TEXT" ++
  drawText ("1:" ++ jsNum c.scale) (x + 55) (y + h - 75) 3 "TEXT"

/-- `drawFrontView` (dxfEngine.ts lines 258-303). -/
def drawFrontView (c : ResolvedConfig) : List DXFRec :=
  let width := c.width
  let height := c.height
  let x := -width / 2
  let y := height / 2 + 50
  drawText "FRONT VIEW" (x + width / 2 - 20) (y + 20) 4 "TEXT" ++
  drawRectangle x (y - height) width height "GEOMETRY" ++
  drawLine (x + width / 2) (y - height - 10) (x + width / 2) (y + 10) "CENTERLINES" ++
  drawLine (x - 10) (y - height / 2) (x + width + 10) (y - height / 2) "CENTERLINES" ++
  drawHorizontalDimension x (y - height - 30) width (jsNum width) "DIMENSIONS" ++
  drawVerticalDimension (x - 30) (y - height) height (jsNum height) "DIMENSIONS"

/-- `drawTopView` (dxfEngine.ts lines 305-356). -/
def drawTopView (c : ResolvedConfig) : List DXFRec :=
  let width := c.width
  let depth := c.depth
  let x := -width / 2
  let y : ℚ := -50
  drawText "TOP VIEW" (x + width / 2 - 15) (y + depth + 20) 4 "TEXT" ++
  drawRectangle x y width depth "GEOMETRY" ++
  drawLine (x + width / 2) (y - 10) (x + width / 2) (y + depth + 10) "CENTERLINES" ++
  drawLine (x - 10) (y + depth / 2) (x + width + 10) (y + depth / 2) "CENTERLINES" ++
  drawHorizontalDimension x (y - 30) width (jsNum width) "DIMENSIONS" ++
  drawVerticalDimension (x + width + 20) y depth (jsNum depth) "DIMENSIONS"

/-- `drawSideView` (dxfEngine.ts lines 358-396). -/
def drawSideView (c : ResolvedConfig) : List DXFRec :=
  let depth := c.depth
  let height := c.height
  let x : ℚ := 150
  let y := height / 2 + 50
  drawText "SIDE VIEW" (x + depth / 2 - 15) (y + 20) 4 "TEXT" ++
  drawRectangle x (y - height) depth height "GEOMETRY" ++
  drawLine (x + depth / 2) (y - height - 10) (x + depth / 2) (y + 10) "CENTERLINES" ++
  drawLine (x - 10) (y - height / 2) (x + depth + 10) (y - height / 2) "CENTERLINES" ++
  drawHorizontalDimension x (y - height - 30) depth (jsNum depth) "DIMENSIONS"

/-- `drawIsometricGuide` (dxfEngine.ts lines 398-408). -/
def drawIsometricGuide : List DXFRec :=
  let x : ℚ := 150
  let y : ℚ := -50
  drawText "3D VIEW:" x (y - 20) 3 "TEXT" ++
  drawText "See web interface" x (y - 30) 2.5 "TEXT" ++
  drawText "for interactive 3D" x (y - 38) 2.5 "TEXT"

/-- The literal `$ACADVER`/`$INSUNITS`/`$MEASUREMENT` header variables
(dxfEngine.ts lines 54-74). -/
def headerVariables : String :=
  "9\n$ACADVER\n1\nAC1015\n9\n$INSUNITS\n70\n4\n9\n$MEASUREMENT\n70\n1\n"

/-- `generateHeader` (dxfEngine.ts lines 54-74). -/
def generateHeader : List DXFRec :=
  [DXFRec.secStart "HEADER", DXFRec.raw headerVariables, DXFRec.secEnd]

/-- The three literal LTYPE definitions CONTINUOUS/CENTER/HIDDEN
(dxfEngine.ts lines 89-144). -/
def ltypeDefinitions : String :=
  "0\nLTYPE\n2\nCONTINUOUS\n70\n0\n3\nSolid line\n72\n65\n73\n0\n40\n0.0\n" ++
  "0\nLTYPE\n2\nCENTER\n70\n0\n3\nCenter ____ _ ____ _ ____ _ ____ _ ____ _\n" ++
  "72\n65\n73\n4\n40\n2.0\n49\n1.25\n49\n-0.25\n49\n0.25\n49\n-0.25\n" ++
  "0\nLTYPE\n2\nHIDDEN\n70\n0\n3\nHidden __ __ __ __ __ __ __ __ __ __ __ __\n" ++
  "72\n65\n73\n2\n40\n0.375\n49\n0.25\n49\n-0.125\n"

/-- `generateTables` (dxfEngine.ts lines 76-177): LTYPE table (whose count
field reuses `layers.length`), then the LAYER table. -/
def generateTables : List DXFRec :=
  [DXFRec.secStart "TABLES",
   DXFRec.tableStart "LTYPE" layers.length,
   DXFRec.raw ltypeDefinitions,
   DXFRec.tableEnd,
   DXFRec.tableStart "LAYER" layers.length] ++
  (layers.map fun l => DXFRec.layerRec l.name l.color l.lineType) ++
  [DXFRec.tableEnd, DXFRec.secEnd]

/-- `generateBlocks` (dxfEngine.ts lines 179-187): empty placeholder. -/
def generateBlocks : List DXFRec :=
  [DXFRec.secStart "BLOCKS", DXFRec.secEnd]

/-- `generateEntities` (dxfEngine.ts lines 189-215). -/
def generateEntities (c : ResolvedConfig) : List DXFRec :=
  [DXFRec.secStart "ENTITIES"] ++
  drawTitleBlock c ++
  drawFrontView c ++
  drawTopView c ++
  drawSideView c ++
  drawIsometricGuide ++
  [DXFRec.secEnd]

/-- `generateFooter` (dxfEngine.ts lines 531-535). -/
def generateFooter : List DXFRec :=
  [DXFRec.eof]

/-- `DXFEngine.generate` (dxfEngine.ts lines 45-52), at the record level. -/
def generateRecords (today : String) (config : DrawingConfig) : List DXFRec :=
  let c := resolveConfig today config
  generateHeader ++ generateTables ++ generateBlocks ++
    generateEntities c ++ generateFooter

end DXFEngine

/-- `generateEngineeringDrawing` (dxfEngine.ts lines 538-541): the full
document string.  `today` models the ambient clock read by the constructor
when no date is supplied. -/
def generateEngineeringDrawing (today : String) (config : DrawingConfig) : String :=
  serializeRecords (DXFEngine.generateRecords today config)

/-- Names of the `SECTION` records, in emission order. -/
def sectionNames (recs : List DXFRec) : List String :=
  recs.filterMap fun r => match r with
    | .secStart n => some n
    | _ => none

/-- Names of the LAYER table entries, in emission order. -/
def layerTableNames (recs : List DXFRec) : List String :=
  recs.filterMap fun r => match r with
    | .layerRec n _ _ => some n
    | _ => none

/-- Payloads of the TEXT records, in emission order. -/
def textPayloads (recs : List DXFRec) : List String :=
  recs.filterMap fun r => match r with
    | .text _ _ _ _ p => some p
    | _ => none

/-- A LINE or TEXT record declares an owning layer from `names`
(other records hold no entity layer). -/
def entityLayerOk (names : List String) : DXFRec → Bool
  | .line l _ _ _ _ => names.contains l
  | .text l _ _ _ _ => names.contains l
  | _ => true

/-- The coordinate-field strings a record contributes to the output, in
template order: `toFixed(3)` of each x/y plus the hard-coded `0.0` z
fields (group codes 30/31 for LINE, 30 for TEXT). -/
def emittedCoordStrings : DXFRec → List String
  | .line _ x1 y1 x2 y2 =>
    [toFixed3 x1, toFixed3 y1, "0.0", toFixed3 x2, toFixed3 y2, "0.0"]
  | .text _ x y _ _ => [toFixed3 x, toFixed3 y, "0.0"]
  | _ => []

/-- The x coordinates of the GEOMETRY-layer LINE records. -/
def geomXs : List DXFRec → List ℚ
  | [] => []
  | .line l x1 _ x2 _ :: rest =>
    if l = "GEOMETRY" then x1 :: x2 :: geomXs rest else geomXs rest
  | _ :: rest => geomXs rest

/-- The y coordinates of the GEOMETRY-layer LINE records. -/
def geomYs : List DXFRec → List ℚ
  | [] => []
  | .line l _ y1 _ y2 :: rest =>
    if l = "GEOMETRY" then y1 :: y2 :: geomYs rest else geomYs rest
  | _ :: rest => geomYs rest

/-- Minimum of a rational list. -/
def qMin : List ℚ → Option ℚ
  | [] => none
  | x :: xs => some (match qMin xs with | none => x | some m => min x m)

/-- Maximum of a rational list. -/
def qMax : List ℚ → Option ℚ
  | [] => none
  | x :: xs => some (match qMax xs with | none => x | some m => max x m)

/-- Vertical gap between the bottom edge of the front-view outline and the
top edge of the top-view outline. -/
def frontTopGutter (c : ResolvedConfig) : Option ℚ :=
  match qMin (geomYs (DXFEngine.drawFrontView c)),
        qMax (geomYs (DXFEngine.drawTopView c)) with
  | some fb, some tt => some (fb - tt)
  | _, _ => none

/-! ## Helper lemmas -/

/-- `String.data` distributes over append. -/
theorem string_data_append (a b : String) : (a ++ b).data = a.data ++ b.data := rfl

/-- A digit character is never a decimal point. -/
theorem digChar_ne_dot (n : ℕ) : digChar n ≠ '.' := by
  unfold digChar
  have h : n % 10 < 10 := Nat.mod_lt _ (by norm_num)
  revert h
  generalize n % 10 = k
  intro h
  interval_cases k <;> decide

/-- Boolean form of `digChar_ne_dot`. -/
theorem digChar_bne_dot (n : ℕ) : (digChar n != '.') = true := by
  simp [digChar_ne_dot]

/-- Every string produced by `toFixed3` has exactly three characters after
its last decimal point. -/
theorem toFixed3_fracDigits (q : ℚ) : fracDigits (toFixed3 q) = some 3 := by
  have h1 : (toFixed3 q).data =
      ((if q.num < 0 then "-" else "").data ++ (natRepr (fix3Int q / 1000)).data ++
        ['.']) ++
      [digChar (fix3Int q % 1000 / 100),
       digChar (fix3Int q % 1000 / 10 % 10),
       digChar (fix3Int q % 1000 % 10)] := rfl
  have hmem : '.' ∈ (toFixed3 q).data := by
    rw [h1]; simp
  rw [fracDigits, if_pos hmem, h1]
  simp [List.takeWhile, digChar_bne_dot]

/-- Every coordinate-field string of any record is either a three-decimal
`toFixed(3)` value or the hard-coded z literal `0.0`. -/
theorem emittedCoord_three_or_zero (r : DXFRec) (s : String)
    (hs : s ∈ emittedCoordStrings r) : fracDigits s = some 3 ∨ s = "0.0" := by
  cases r <;> simp [emittedCoordStrings] at hs <;>
    rcases hs with rfl | rfl | rfl | rfl | rfl | rfl <;>
    first
      | exact Or.inl (toFixed3_fracDigits _)
      | exact Or.inr rfl

/-! ## Claim C1 -/

/-- Claim C1 (counterexample): `generateShape` itself performs no dimension
validation — on a box with `width = -1` it succeeds and returns a full
8-vertex mesh with (negative) volume `-1` instead of failing. -/
theorem generateShape_accepts_nonpositive_box :
    ∃ g, generateShape { type := "box", width := -1, height := 1, depth := 1 } =
        Except.ok g ∧
      g.vertices.length = 8 ∧ g.volume = -1 := by
  refine ⟨generateBox { type := "box", width := -1, height := 1, depth := 1 },
    by simp [generateShape], by simp [generateBox], ?_⟩
  show ((((-1 : ℚ)) * 1 * 1 : ℚ) : ℝ) = -1
  norm_num

/-- Claim C1 (amended): the `≤ 0` rejection lives in the HTTP controller
`generateModel`, not in `generateShape`: for every recognized shape with a
required dimension `≤ 0`, `generateModel` answers an error (HTTP 400)
before any geometry is produced. -/
theorem generateModel_rejects_nonpositive_dims (s : Shape)
    (h : hasNonPositiveDim s) : ∃ msg, generateModel s = Except.error msg := by
  rcases h with ⟨ht, hd⟩ | ⟨ht, hd⟩ | ⟨ht, hd⟩
  · simp only [generateModel, ht]
    rw [if_neg (by decide), if_pos (by decide)]
    split_ifs with h1 <;> exact ⟨_, rfl⟩
  · rcases ht with ht | ht <;>
      · simp only [generateModel, ht]
        rw [if_neg (by decide), if_neg (by decide), if_pos (by decide)]
        split_ifs with h1 <;> exact ⟨_, rfl⟩
  · simp only [generateModel, ht]
    rw [if_neg (by decide), if_neg (by decide), if_neg (by decide),
      if_pos (by decide)]
    split_ifs with h1 <;> exact ⟨_, rfl⟩

/-- Claim C1 witness: a box with `width = -1` is rejected by the controller. -/
theorem generateModel_rejects_nonpositive_dims_witness :
    ∃ msg, generateModel { type := "box", width := -1, height := 1, depth := 1 } =
      Except.error msg :=
  generateModel_rejects_nonpositive_dims _ (Or.inl ⟨rfl, Or.inl (by norm_num)⟩)

/-! ## Claim C4 -/

/-- Claim C4: for every box with positive dimensions, `generateShape`
returns volume exactly `w*h*d`, surface area exactly
`2*(w*h + w*d + h*d)`, and a mesh with exactly 8 vertices, 6 faces and
12 edges.  (`Shape.mk` fields: type, width, height, depth, radius,
material.) -/
theorem box_geometry_exact (w h d r : ℚ) (m : Option Material)
    (hw : 0 < w) (hh : 0 < h) (hd : 0 < d) :
    ∃ g, generateShape (Shape.mk "box" w h d r m) = Except.ok g ∧
      g.volume = ((w : ℝ)) * ((h : ℝ)) * ((d : ℝ)) ∧
      g.surfaceArea = 2 * (((w : ℝ)) * ((h : ℝ)) + ((w : ℝ)) * ((d : ℝ)) +
        ((h : ℝ)) * ((d : ℝ))) ∧
      g.vertices.length = 8 ∧ g.faces.length = 6 ∧ g.edges.length = 12 := by
  refine ⟨generateBox (Shape.mk "box" w h d r m), by simp [generateShape],
    ?_, ?_, rfl, rfl, rfl⟩
  · show ((w * h * d : ℚ) : ℝ) = _
    push_cast
    ring
  · show ((2 * (w * h + w * d + h * d) : ℚ) : ℝ) = _
    push_cast
    ring

/-- Claim C4 witness: the 10 × 20 × 30 box. -/
theorem box_geometry_exact_witness :
    ∃ g, generateShape (Shape.mk "box" 10 20 30 0 none) = Except.ok g ∧
      g.volume = (((10 : ℚ) : ℝ)) * (((20 : ℚ) : ℝ)) * (((30 : ℚ) : ℝ)) ∧
      g.surfaceArea = 2 * ((((10 : ℚ) : ℝ)) * (((20 : ℚ) : ℝ)) +
        (((10 : ℚ) : ℝ)) * (((30 : ℚ) : ℝ)) +
        (((20 : ℚ) : ℝ)) * (((30 : ℚ) : ℝ))) ∧
      g.vertices.length = 8 ∧ g.faces.length = 6 ∧ g.edges.length = 12 :=
  box_geometry_exact 10 20 30 0 none (by norm_num) (by norm_num) (by norm_num)

/-! ## Claim C5 -/

/-- All box face/edge indices are below the vertex count (8). -/
theorem box_mesh_bound :
    (∀ f ∈ (generateBox { type := "box" }).faces, ∀ i ∈ f,
      i < (generateBox { type := "box" }).vertices.length) ∧
    (∀ e ∈ (generateBox { type := "box" }).edges, ∀ i ∈ e,
      i < (generateBox { type := "box" }).vertices.length) := by decide

/-- All cylinder face/edge indices are below the vertex count (66). -/
theorem cylinder_mesh_bound :
    (∀ f ∈ (generateCylinder { type := "cylinder" }).faces, ∀ i ∈ f,
      i < (generateCylinder { type := "cylinder" }).vertices.length) ∧
    (∀ e ∈ (generateCylinder { type := "cylinder" }).edges, ∀ i ∈ e,
      i < (generateCylinder { type := "cylinder" }).vertices.length) := by decide

/-- All cone face/edge indices are below the vertex count (34). -/
theorem cone_mesh_bound :
    (∀ f ∈ (generateCone { type := "cone" }).faces, ∀ i ∈ f,
      i < (generateCone { type := "cone" }).vertices.length) ∧
    (∀ e ∈ (generateCone { type := "cone" }).edges, ∀ i ∈ e,
      i < (generateCone { type := "cone" }).vertices.length) := by decide

set_option maxRecDepth 4000 in
/-- All sphere face/edge indices are below the vertex count (289). -/
theorem sphere_mesh_bound :
    (∀ f ∈ (generateSphere { type := "sphere" }).faces, ∀ i ∈ f,
      i < (generateSphere { type := "sphere" }).vertices.length) ∧
    (∀ e ∈ (generateSphere { type := "sphere" }).edges, ∀ i ∈ e,
      i < (generateSphere { type := "sphere" }).vertices.length) := by decide

set_option maxRecDepth 4000 in
/-- Claim C5: for every recognized shape with positive dimensions, the mesh
has a non-empty vertex list and every face/edge index is strictly below the
vertex count. -/
theorem mesh_indices_in_bounds (s : Shape) (ht : recognizedTag s)
    (hp : posDims s) :
    ∃ g, generateShape s = Except.ok g ∧ g.vertices ≠ [] ∧
      (∀ f ∈ g.faces, ∀ i ∈ f, i < g.vertices.length) ∧
      (∀ e ∈ g.edges, ∀ i ∈ e, i < g.vertices.length) := by
  rcases ht with h | h | h | h
  · exact ⟨generateBox s, by simp [generateShape, h], by simp [generateBox],
      box_mesh_bound.1, box_mesh_bound.2⟩
  · exact ⟨generateCylinder s, by simp [generateShape, h],
      by simp [generateCylinder], cylinder_mesh_bound.1, cylinder_mesh_bound.2⟩
  · exact ⟨generateCone s, by simp [generateShape, h],
      by simp [generateCone], cone_mesh_bound.1, cone_mesh_bound.2⟩
  · refine ⟨generateSphere s, by simp [generateShape, h],
      ?_, sphere_mesh_bound.1, sphere_mesh_bound.2⟩
    simp [generateSphere]
    exact ⟨0, by norm_num⟩

set_option maxRecDepth 4000 in
/-- Claim C5 witness: the radius-2 sphere. -/
theorem mesh_indices_in_bounds_witness :
    ∃ g, generateShape { type := "sphere", radius := 2 } = Except.ok g ∧
      g.vertices ≠ [] ∧
      (∀ f ∈ g.faces, ∀ i ∈ f, i < g.vertices.length) ∧
      (∀ e ∈ g.edges, ∀ i ∈ e, i < g.vertices.length) :=
  mesh_indices_in_bounds _ (Or.inr (Or.inr (Or.inr rfl)))
    ⟨fun hx => absurd hx (by decide), fun hx => absurd hx (by decide),
      fun _ => by decide⟩

/-! ## Claim C6 -/

/-- Claim C6: for every valid shape, the weight is present iff a material
is supplied, and then equals `(volume / 1e6) * density`; without a
material the operation still succeeds and simply omits the weight. -/
theorem weight_present_iff_material (s : Shape) (ht : recognizedTag s)
    (hp : posDims s) :
    ∃ g, generateShape s = Except.ok g ∧
      g.weight.isSome = s.material.isSome ∧
      ∀ m, s.material = some m →
        g.weight = some (g.volume / 1000000 * (m.density : ℝ)) := by
  rcases ht with h | h | h | h
  · refine ⟨generateBox s, by simp [generateShape, h], by simp [generateBox], ?_⟩
    intro m hm
    simp [generateBox, hm]
  · refine ⟨generateCylinder s, by simp [generateShape, h],
      by simp [generateCylinder], ?_⟩
    intro m hm
    simp [generateCylinder, hm]
  · refine ⟨generateCone s, by simp [generateShape, h],
      by simp [generateCone], ?_⟩
    intro m hm
    simp [generateCone, hm]
  · refine ⟨generateSphere s, by simp [generateShape, h],
      by simp [generateSphere], ?_⟩
    intro m hm
    simp [generateSphere, hm]

/-- Claim C6 witness: a steel 10 × 20 × 30 box has its weight filled in,
and a material-less one does not. -/
theorem weight_present_iff_material_witness :
    (∃ g, generateShape (Shape.mk "box" 10 20 30 0
          (some (Material.mk "Steel" 7850 "#888888" "metallic" none))) =
        Except.ok g ∧
      g.weight.isSome = (some (Material.mk "Steel" 7850 "#888888" "metallic"
        none)).isSome ∧
      ∀ m, (some (Material.mk "Steel" 7850 "#888888" "metallic" none) :
          Option Material) = some m →
        g.weight = some (g.volume / 1000000 * (m.density : ℝ))) ∧
    (∃ g, generateShape (Shape.mk "box" 10 20 30 0 none) = Except.ok g ∧
      g.weight.isSome = (none : Option Material).isSome ∧
      ∀ m, (none : Option Material) = some m →
        g.weight = some (g.volume / 1000000 * (m.density : ℝ))) :=
  ⟨weight_present_iff_material (Shape.mk "box" 10 20 30 0
      (some (Material.mk "Steel" 7850 "#888888" "metallic" none)))
      (Or.inl rfl)
      ⟨fun _ => by refine ⟨?_, ?_, ?_⟩ <;> decide,
        fun hx => absurd hx (by decide), fun hx => absurd hx (by decide)⟩,
    weight_present_iff_material (Shape.mk "box" 10 20 30 0 none)
      (Or.inl rfl)
      ⟨fun _ => by refine ⟨?_, ?_, ?_⟩ <;> decide,
        fun hx => absurd hx (by decide), fun hx => absurd hx (by decide)⟩⟩

/-! ## Claim C7 -/

/-- Claim C7: a positive-dimension cylinder gets a mesh with
`2 * segments + 2 = 66` vertices for the fixed 32-segment resolution, and
a volume within floating-point tolerance (relative error at most `1e-15`)
of `π·r²·h`. -/
theorem cylinder_vertex_count_volume (w h d r : ℚ) (m : Option Material)
    (hr : 0 < r) (hh : 0 < h) :
    ∃ g, generateShape (Shape.mk "cylinder" w h d r m) = Except.ok g ∧
      g.vertices.length = 2 * 32 + 2 ∧
      |g.volume - Real.pi * ((r : ℝ)) ^ 2 * ((h : ℝ))| ≤
        1e-15 * (((r : ℝ)) ^ 2 * ((h : ℝ))) := by
  refine ⟨generateCylinder (Shape.mk "cylinder" w h d r m),
    by simp [generateShape], rfl, ?_⟩
  have hvol : (generateCylinder (Shape.mk "cylinder" w h d r m)).volume =
      ((piJS * r * r * h : ℚ) : ℝ) := rfl
  have hpj : |((piJS : ℚ) : ℝ) - Real.pi| ≤ 1e-15 := by
    have h1 : ((piJS : ℚ) : ℝ) = 3.141592653589793 := by norm_num [piJS]
    rw [h1, abs_le]
    constructor <;> linarith [Real.pi_gt_d20, Real.pi_lt_d20]
  have hfactor : ((piJS * r * r * h : ℚ) : ℝ) -
      Real.pi * ((r : ℝ)) ^ 2 * ((h : ℝ)) =
      (((piJS : ℚ) : ℝ) - Real.pi) * (((r : ℝ)) ^ 2 * ((h : ℝ))) := by
    push_cast
    ring
  have hr2 : (0 : ℝ) < ((r : ℝ)) := by exact_mod_cast hr
  have hh2 : (0 : ℝ) < ((h : ℝ)) := by exact_mod_cast hh
  have hpos : (0 : ℝ) < ((r : ℝ)) ^ 2 * ((h : ℝ)) := by positivity
  rw [hvol, hfactor, abs_mul, abs_of_pos hpos]
  exact mul_le_mul_of_nonneg_right hpj (le_of_lt hpos)

/-- Claim C7 witness: the unit cylinder. -/
theorem cylinder_vertex_count_volume_witness :
    ∃ g, generateShape (Shape.mk "cylinder" 0 1 0 1 none) = Except.ok g ∧
      g.vertices.length = 2 * 32 + 2 ∧
      |g.volume - Real.pi * (((1 : ℚ) : ℝ)) ^ 2 * (((1 : ℚ) : ℝ))| ≤
        1e-15 * ((((1 : ℚ) : ℝ)) ^ 2 * (((1 : ℚ) : ℝ))) :=
  cylinder_vertex_count_volume 0 1 0 1 none (by norm_num) (by norm_num)

/-! ## DXF helper lemmas -/

/-- `textPayloads` distributes over append. -/
theorem textPayloads_append (a b : List DXFRec) :
    textPayloads (a ++ b) = textPayloads a ++ textPayloads b := by
  simp [textPayloads]

/-- Payloads of the title block, in emission order. -/
theorem textPayloads_titleBlock (c : ResolvedConfig) :
    textPayloads (DXFEngine.drawTitleBlock c) =
      ["TITLE:", c.modelName, "AUTHOR:", c.author, "DATE:", c.date,
        "SCALE:", "1:" ++ jsNum c.scale] := rfl

/-- Payloads of the front view, in emission order. -/
theorem textPayloads_frontView (c : ResolvedConfig) :
    textPayloads (DXFEngine.drawFrontView c) =
      ["FRONT VIEW", jsNum c.width, jsNum c.height] := rfl

/-- Payloads of the top view, in emission order. -/
theorem textPayloads_topView (c : ResolvedConfig) :
    textPayloads (DXFEngine.drawTopView c) =
      ["TOP VIEW", jsNum c.width, jsNum c.depth] := rfl

/-- Payloads of the side view, in emission order. -/
theorem textPayloads_sideView (c : ResolvedConfig) :
    textPayloads (DXFEngine.drawSideView c) =
      ["SIDE VIEW", jsNum c.depth] := rfl

/-- Payloads of the 3D-view hint, in emission order. -/
theorem textPayloads_isometricGuide :
    textPayloads DXFEngine.drawIsometricGuide =
      ["3D VIEW:", "See web interface", "for interactive 3D"] := rfl

/-- The document's TEXT payloads are those of the five entity groups. -/
theorem textPayloads_generateRecords (today : String) (cfg : DrawingConfig) :
    textPayloads (DXFEngine.generateRecords today cfg) =
      textPayloads (DXFEngine.drawTitleBlock (DXFEngine.resolveConfig today cfg)) ++
      textPayloads (DXFEngine.drawFrontView (DXFEngine.resolveConfig today cfg)) ++
      textPayloads (DXFEngine.drawTopView (DXFEngine.resolveConfig today cfg)) ++
      textPayloads (DXFEngine.drawSideView (DXFEngine.resolveConfig today cfg)) ++
      textPayloads DXFEngine.drawIsometricGuide := by
  simp [DXFEngine.generateRecords, DXFEngine.generateHeader,
    DXFEngine.generateTables, DXFEngine.generateBlocks,
    DXFEngine.generateEntities, DXFEngine.generateFooter, DXFEngine.layers,
    textPayloads_append, textPayloads]

/-- The document is independent of the clock once the config is resolved. -/
theorem render_eq_of_resolve_eq (t1 t2 : String) (c1 c2 : DrawingConfig)
    (h : DXFEngine.resolveConfig t1 c1 = DXFEngine.resolveConfig t2 c2) :
    generateEngineeringDrawing t1 c1 = generateEngineeringDrawing t2 c2 := by
  unfold generateEngineeringDrawing DXFEngine.generateRecords
  rw [h]

/-! ## Claim C2 -/

/-- Claim C2 (counterexample): the z coordinate fields of LINE (group
codes 30/31) and TEXT (group code 30) records are emitted as the
hard-coded literal `0.0` — one decimal place, not three — so "every
coordinate field … exactly 3 decimal places" fails on every document. -/
theorem dxf_z_coordinate_one_decimal :
    ∃ r ∈ DXFEngine.generateRecords "2024-01-01"
        { width := 100, height := 100, depth := 100 },
      ∃ s ∈ emittedCoordStrings r, fracDigits s ≠ some 3 := by
  refine ⟨DXFRec.line "TITLEBLOCK" 250 (-150) (250 + 150) (-150), ?_, "0.0", ?_,
    by decide⟩
  · simp [DXFEngine.generateRecords, DXFEngine.generateHeader,
      DXFEngine.generateTables, DXFEngine.generateBlocks,
      DXFEngine.generateEntities, DXFEngine.generateFooter,
      DXFEngine.drawTitleBlock, DXFEngine.drawFrontView, DXFEngine.drawTopView,
      DXFEngine.drawSideView, DXFEngine.drawIsometricGuide,
      DXFEngine.drawRectangle, DXFEngine.drawHorizontalDimension,
      DXFEngine.drawVerticalDimension, DXFEngine.drawLine, DXFEngine.drawText,
      DXFEngine.layers]
  · simp [emittedCoordStrings]

/-- Claim C2 (amended): for every config the document has its sections in
the order HEADER, TABLES, BLOCKS, ENTITIES followed by the EOF marker; the
layer table lists exactly the six layers in the fixed order; every LINE
and TEXT record's owning layer is in the layer table; and every coordinate
field is either a three-decimal `toFixed(3)` x/y value or the hard-coded
planar z literal `0.0`. -/
theorem dxf_document_structure (today : String) (cfg : DrawingConfig) :
    sectionNames (DXFEngine.generateRecords today cfg) =
      ["HEADER", "TABLES", "BLOCKS", "ENTITIES"] ∧
    (DXFEngine.generateRecords today cfg).getLast? = some DXFRec.eof ∧
    layerTableNames (DXFEngine.generateRecords today cfg) =
      ["DIMENSIONS", "GEOMETRY", "CENTERLINES", "HIDDEN", "TEXT", "TITLEBLOCK"] ∧
    (DXFEngine.generateRecords today cfg).all
      (entityLayerOk (layerTableNames (DXFEngine.generateRecords today cfg))) =
      true ∧
    (∀ r ∈ DXFEngine.generateRecords today cfg, ∀ s ∈ emittedCoordStrings r,
      fracDigits s = some 3 ∨ s = "0.0") := by
  have hlayers : layerTableNames (DXFEngine.generateRecords today cfg) =
      ["DIMENSIONS", "GEOMETRY", "CENTERLINES", "HIDDEN", "TEXT",
        "TITLEBLOCK"] := by
    simp [DXFEngine.generateRecords, DXFEngine.generateHeader,
      DXFEngine.generateTables, DXFEngine.generateBlocks,
      DXFEngine.generateEntities, DXFEngine.generateFooter,
      DXFEngine.drawTitleBlock, DXFEngine.drawFrontView, DXFEngine.drawTopView,
      DXFEngine.drawSideView, DXFEngine.drawIsometricGuide,
      DXFEngine.drawRectangle, DXFEngine.drawHorizontalDimension,
      DXFEngine.drawVerticalDimension, DXFEngine.drawLine, DXFEngine.drawText,
      DXFEngine.layers, layerTableNames]
  refine ⟨?_, ?_, hlayers, ?_, fun r _ s hs => emittedCoord_three_or_zero r s hs⟩
  · simp [DXFEngine.generateRecords, DXFEngine.generateHeader,
      DXFEngine.generateTables, DXFEngine.generateBlocks,
      DXFEngine.generateEntities, DXFEngine.generateFooter,
      DXFEngine.drawTitleBlock, DXFEngine.drawFrontView, DXFEngine.drawTopView,
      DXFEngine.drawSideView, DXFEngine.drawIsometricGuide,
      DXFEngine.drawRectangle, DXFEngine.drawHorizontalDimension,
      DXFEngine.drawVerticalDimension, DXFEngine.drawLine, DXFEngine.drawText,
      DXFEngine.layers, sectionNames]
  · simp [DXFEngine.generateRecords, DXFEngine.generateFooter,
      List.getLast?_append]
  · rw [hlayers]
    simp [DXFEngine.generateRecords, DXFEngine.generateHeader,
      DXFEngine.generateTables, DXFEngine.generateBlocks,
      DXFEngine.generateEntities, DXFEngine.generateFooter,
      DXFEngine.drawTitleBlock, DXFEngine.drawFrontView, DXFEngine.drawTopView,
      DXFEngine.drawSideView, DXFEngine.drawIsometricGuide,
      DXFEngine.drawRectangle, DXFEngine.drawHorizontalDimension,
      DXFEngine.drawVerticalDimension, DXFEngine.drawLine, DXFEngine.drawText,
      DXFEngine.layers, entityLayerOk]

/-! ## Claim C3 -/

/-- Claim C3 (counterexample): for the 100 × 100 × 100 config the bottom
edge of the front-view rectangle sits at `y = 0` and the top edge of the
top-view rectangle at `y = 50`, a gap of `-50` (the views overlap), not
the claimed fixed 50-unit gutter. -/
theorem topView_gutter_not_fixed_50 :
    frontTopGutter (DXFEngine.resolveConfig "2024-01-01"
      { width := 100, height := 100, depth := 100 }) ≠ some 50 := by
  norm_num [frontTopGutter, DXFEngine.resolveConfig, DXFEngine.drawFrontView,
    DXFEngine.drawTopView, DXFEngine.drawRectangle, DXFEngine.drawLine,
    DXFEngine.drawText, DXFEngine.drawHorizontalDimension,
    DXFEngine.drawVerticalDimension, geomYs, qMin, qMax, jsOrStr, jsOrNum,
    min_def, max_def]

/-- Claim C3 (amended): the top view is left/right aligned with the front
view (both outlines span `x ∈ [-width/2, width/2]`), but it is anchored at
the fixed band `y ∈ [-50, depth - 50]`: the vertical gap below the front
view's bottom edge is `100 - height/2 - depth`, which varies with `height`
and `depth` and equals 50 only when `height/2 + depth = 50`. -/
theorem topView_placement (t : String) (cfg : DrawingConfig)
    (hw : 0 < cfg.width) (hh : 0 < cfg.height) (hd : 0 < cfg.depth) :
    qMin (geomXs (DXFEngine.drawFrontView (DXFEngine.resolveConfig t cfg))) =
      qMin (geomXs (DXFEngine.drawTopView (DXFEngine.resolveConfig t cfg))) ∧
    qMax (geomXs (DXFEngine.drawFrontView (DXFEngine.resolveConfig t cfg))) =
      qMax (geomXs (DXFEngine.drawTopView (DXFEngine.resolveConfig t cfg))) ∧
    frontTopGutter (DXFEngine.resolveConfig t cfg) =
      some (100 - cfg.height / 2 - cfg.depth) := by
  have hfx : geomXs (DXFEngine.drawFrontView (DXFEngine.resolveConfig t cfg)) =
      [-cfg.width / 2, -cfg.width / 2 + cfg.width, -cfg.width / 2 + cfg.width,
       -cfg.width / 2 + cfg.width, -cfg.width / 2 + cfg.width, -cfg.width / 2,
       -cfg.width / 2, -cfg.width / 2] := rfl
  have htx : geomXs (DXFEngine.drawTopView (DXFEngine.resolveConfig t cfg)) =
      [-cfg.width / 2, -cfg.width / 2 + cfg.width, -cfg.width / 2 + cfg.width,
       -cfg.width / 2 + cfg.width, -cfg.width / 2 + cfg.width, -cfg.width / 2,
       -cfg.width / 2, -cfg.width / 2] := rfl
  have hfy : geomYs (DXFEngine.drawFrontView (DXFEngine.resolveConfig t cfg)) =
      [cfg.height / 2 + 50 - cfg.height, cfg.height / 2 + 50 - cfg.height,
       cfg.height / 2 + 50 - cfg.height,
       cfg.height / 2 + 50 - cfg.height + cfg.height,
       cfg.height / 2 + 50 - cfg.height + cfg.height,
       cfg.height / 2 + 50 - cfg.height + cfg.height,
       cfg.height / 2 + 50 - cfg.height + cfg.height,
       cfg.height / 2 + 50 - cfg.height] := rfl
  have hty : geomYs (DXFEngine.drawTopView (DXFEngine.resolveConfig t cfg)) =
      [-50, -50, -50, -50 + cfg.depth, -50 + cfg.depth, -50 + cfg.depth,
       -50 + cfg.depth, -50] := rfl
  have hxle : -cfg.width / 2 ≤ -cfg.width / 2 + cfg.width := by linarith
  have hyle : cfg.height / 2 + 50 - cfg.height ≤
      cfg.height / 2 + 50 - cfg.height + cfg.height := by linarith
  have htyle : (-50 : ℚ) ≤ -50 + cfg.depth := by linarith
  have hh0 : (0 : ℚ) ≤ cfg.height := le_of_lt hh
  have hd0 : (0 : ℚ) ≤ cfg.depth := le_of_lt hd
  have hqfy : qMin (geomYs (DXFEngine.drawFrontView
      (DXFEngine.resolveConfig t cfg))) =
      some (cfg.height / 2 + 50 - cfg.height) := by
    rw [hfy]
    simp [qMin, min_self, min_eq_right hyle, min_eq_left hyle, hh0]
  have hqty : qMax (geomYs (DXFEngine.drawTopView
      (DXFEngine.resolveConfig t cfg))) = some (-50 + cfg.depth) := by
    rw [hty]
    simp [qMax, max_self, max_eq_left htyle, max_eq_right htyle, hd0]
  refine ⟨?_, ?_, ?_⟩
  · rw [hfx, htx]
  · rw [hfx, htx]
  · have harith : cfg.height / 2 + 50 - cfg.height - (-50 + cfg.depth) =
        100 - cfg.height / 2 - cfg.depth := by ring
    simp [frontTopGutter, hqfy, hqty, harith]

/-- Claim C3 witness: at 10 × 20 × 30 the x extents agree and the gap is
`100 - 20/2 - 30 = 60`, not 50. -/
theorem topView_placement_witness :
    qMin (geomXs (DXFEngine.drawFrontView (DXFEngine.resolveConfig "2024-01-01"
        { width := 10, height := 20, depth := 30 }))) =
      qMin (geomXs (DXFEngine.drawTopView (DXFEngine.resolveConfig "2024-01-01"
        { width := 10, height := 20, depth := 30 }))) ∧
    qMax (geomXs (DXFEngine.drawFrontView (DXFEngine.resolveConfig "2024-01-01"
        { width := 10, height := 20, depth := 30 }))) =
      qMax (geomXs (DXFEngine.drawTopView (DXFEngine.resolveConfig "2024-01-01"
        { width := 10, height := 20, depth := 30 }))) ∧
    frontTopGutter (DXFEngine.resolveConfig "2024-01-01"
        { width := 10, height := 20, depth := 30 }) =
      some (100 - ({ width := 10, height := 20, depth := 30 } :
        DrawingConfig).height / 2 -
        ({ width := 10, height := 20, depth := 30 } : DrawingConfig).depth) :=
  topView_placement "2024-01-01" { width := 10, height := 20, depth := 30 }
    (by norm_num) (by norm_num) (by norm_num)

/-! ## Claim C8 -/

/-- Claim C8: rendering the 100 × 100 × 100 config with no metadata
overrides (for any ambient clock value `today`) produces exactly six
layer-table entries, the three view-label TEXT records, and a title block
containing the literal strings "Parametric Box", "Configurator" and
"1:1". -/
theorem drawing_default_config_contents (today : String) :
    (layerTableNames (DXFEngine.generateRecords today
      { width := 100, height := 100, depth := 100 })).length = 6 ∧
    "FRONT VIEW" ∈ textPayloads (DXFEngine.generateRecords today
      { width := 100, height := 100, depth := 100 }) ∧
    "TOP VIEW" ∈ textPayloads (DXFEngine.generateRecords today
      { width := 100, height := 100, depth := 100 }) ∧
    "SIDE VIEW" ∈ textPayloads (DXFEngine.generateRecords today
      { width := 100, height := 100, depth := 100 }) ∧
    "Parametric Box" ∈ textPayloads (DXFEngine.drawTitleBlock
      (DXFEngine.resolveConfig today
        { width := 100, height := 100, depth := 100 })) ∧
    "Configurator" ∈ textPayloads (DXFEngine.drawTitleBlock
      (DXFEngine.resolveConfig today
        { width := 100, height := 100, depth := 100 })) ∧
    "1:1" ∈ textPayloads (DXFEngine.drawTitleBlock
      (DXFEngine.resolveConfig today
        { width := 100, height := 100, depth := 100 })) := by
  have htb : textPayloads (DXFEngine.drawTitleBlock
      (DXFEngine.resolveConfig today
        { width := 100, height := 100, depth := 100 })) =
      ["TITLE:", "Parametric Box", "AUTHOR:", "Configurator", "DATE:", today,
        "SCALE:", "1:1"] := rfl
  have hnum : jsNum ((100 : ℚ)) = "100" := by decide
  have hfv : textPayloads (DXFEngine.drawFrontView
      (DXFEngine.resolveConfig today
        { width := 100, height := 100, depth := 100 })) =
      ["FRONT VIEW", "100", "100"] := by
    rw [textPayloads_frontView]
    simp [DXFEngine.resolveConfig, hnum]
  have htv : textPayloads (DXFEngine.drawTopView
      (DXFEngine.resolveConfig today
        { width := 100, height := 100, depth := 100 })) =
      ["TOP VIEW", "100", "100"] := by
    rw [textPayloads_topView]
    simp [DXFEngine.resolveConfig, hnum]
  have hsv : textPayloads (DXFEngine.drawSideView
      (DXFEngine.resolveConfig today
        { width := 100, height := 100, depth := 100 })) =
      ["SIDE VIEW", "100"] := by
    rw [textPayloads_sideView]
    simp [DXFEngine.resolveConfig, hnum]
  refine ⟨?_, ?_, ?_, ?_, ?_, ?_, ?_⟩
  · simp [DXFEngine.generateRecords, DXFEngine.generateHeader,
      DXFEngine.generateTables, DXFEngine.generateBlocks,
      DXFEngine.generateEntities, DXFEngine.generateFooter,
      DXFEngine.drawTitleBlock, DXFEngine.drawFrontView, DXFEngine.drawTopView,
      DXFEngine.drawSideView, DXFEngine.drawIsometricGuide,
      DXFEngine.drawRectangle, DXFEngine.drawHorizontalDimension,
      DXFEngine.drawVerticalDimension, DXFEngine.drawLine, DXFEngine.drawText,
      DXFEngine.layers, layerTableNames]
  · rw [textPayloads_generateRecords, htb, hfv, htv, hsv,
      textPayloads_isometricGuide]
    simp
  · rw [textPayloads_generateRecords, htb, hfv, htv, hsv,
      textPayloads_isometricGuide]
    simp
  · rw [textPayloads_generateRecords, htb, hfv, htv, hsv,
      textPayloads_isometricGuide]
    simp
  · rw [htb]; simp
  · rw [htb]; simp
  · rw [htb]; simp

/-! ## Claim C9 -/

/-- Claim C9: with the date explicitly supplied (and non-empty — an empty
string is falsy and falls back to the clock, see C10), the rendered
document is byte-identical across any two clock values: the engine has no
other time or randomness dependency. -/
theorem drawing_deterministic_with_date (cfg : DrawingConfig) (ds : String)
    (hdate : cfg.date = some ds) (hne : ds ≠ "") (t1 t2 : String) :
    generateEngineeringDrawing t1 cfg = generateEngineeringDrawing t2 cfg :=
  render_eq_of_resolve_eq t1 t2 cfg cfg
    (by simp [DXFEngine.resolveConfig, jsOrStr, hdate, hne])

/-- Claim C9 witness: two renders of the same dated config, mocked at two
different clock days, agree. -/
theorem drawing_deterministic_with_date_witness :
    generateEngineeringDrawing "2024-01-05"
      { width := 100, height := 100, depth := 100, date := some "2024-01-01" } =
    generateEngineeringDrawing "2024-01-06"
      { width := 100, height := 100, depth := 100, date := some "2024-01-01" } :=
  drawing_deterministic_with_date
    { width := 100, height := 100, depth := 100, date := some "2024-01-01" }
    "2024-01-01" rfl (by decide) "2024-01-05" "2024-01-06"

/-! ## Claim C10 -/

/-- Claim C10: a supplied-but-falsy metadata field (empty string, or scale
0) is treated exactly like an absent one: the rendered document is
identical to the one for the config with the field removed, and the
defaults surface in the title block ("1:1" for scale 0, "Configurator"
for author ""). -/
theorem falsy_metadata_defaults (today : String) (cfg : DrawingConfig) :
    generateEngineeringDrawing today { cfg with modelName := some "" } =
      generateEngineeringDrawing today { cfg with modelName := none } ∧
    generateEngineeringDrawing today { cfg with author := some "" } =
      generateEngineeringDrawing today { cfg with author := none } ∧
    generateEngineeringDrawing today { cfg with date := some "" } =
      generateEngineeringDrawing today { cfg with date := none } ∧
    generateEngineeringDrawing today { cfg with units := some "" } =
      generateEngineeringDrawing today { cfg with units := none } ∧
    generateEngineeringDrawing today { cfg with scale := some 0 } =
      generateEngineeringDrawing today { cfg with scale := none } ∧
    "1:1" ∈ textPayloads (DXFEngine.drawTitleBlock
      (DXFEngine.resolveConfig today { cfg with scale := some 0 })) ∧
    "Configurator" ∈ textPayloads (DXFEngine.drawTitleBlock
      (DXFEngine.resolveConfig today { cfg with author := some "" })) := by
  refine ⟨render_eq_of_resolve_eq _ _ _ _ rfl, render_eq_of_resolve_eq _ _ _ _ rfl,
    render_eq_of_resolve_eq _ _ _ _ rfl, render_eq_of_resolve_eq _ _ _ _ rfl,
    render_eq_of_resolve_eq _ _ _ _ rfl, ?_, ?_⟩
  · have h : textPayloads (DXFEngine.drawTitleBlock
        (DXFEngine.resolveConfig today { cfg with scale := some 0 })) =
        ["TITLE:", jsOrStr cfg.modelName "Parametric Box", "AUTHOR:",
          jsOrStr cfg.author "Configurator", "DATE:", jsOrStr cfg.date today,
          "SCALE:", "1:1"] := rfl
    rw [h]
    simp
  · have h : textPayloads (DXFEngine.drawTitleBlock
        (DXFEngine.resolveConfig today { cfg with author := some "" })) =
        ["TITLE:", jsOrStr cfg.modelName "Parametric Box", "AUTHOR:",
          "Configurator", "DATE:", jsOrStr cfg.date today,
          "SCALE:", "1:" ++ jsNum (jsOrNum cfg.scale 1)] := rfl
    rw [h]
    simp
